import Mathlib

/-!
Shallow embedding of the dual-cluster OpenSearch engine
(`search/document.go` and `search/opensearch/open_search.go`).

Documents are Go maps `map[string]interface{}` holding JSON-like values;
we model them as association lists from field name to a `Value` union.
Go map iteration order is unspecified; the model fixes the list order,
which only matters for which of several failures a map-iterating loop
hits first.
-/

set_option autoImplicit false

namespace OpenSearchDev

/-- The dynamically typed value union stored in a document field:
string, number, boolean, timestamp, null, nested object, or list.
In Go these are the `interface{}` values produced by JSON decoding. -/
inductive Value where
  | str (s : String)
  | num (n : Int)
  | bool (b : Bool)
  | time (t : Nat)
  | null
  | obj (fields : List (String × Value))
  | arr (elems : List Value)

/-- `search.Document`, a Go `map[string]interface{}`: an association list
from field name to value. -/
abbrev Document := List (String × Value)

/-- Go map lookup `v, ok := d[k]`: the value at the first matching key. -/
def lookupKV : Document → String → Option Value
  | [], _ => none
  | (k0, v0) :: rest, k => if k0 = k then some v0 else lookupKV rest k

/-- Go map assignment `d[k] = v`: replace the value at an existing key,
otherwise add the pair. -/
def insertKV : Document → String → Value → Document
  | [], k, v => [(k, v)]
  | (k0, v0) :: rest, k, v =>
      if k0 = k then (k, v) :: rest else (k0, v0) :: insertKV rest k v

/-- Go equality `v1 == v2` on two `interface{}` values. Distinct dynamic
types compare unequal. Identical comparable dynamic types (string, number,
boolean, timestamp, nil) compare by value. Identical uncomparable dynamic
types (`map[string]interface{}`, `[]interface{}`) make the comparison
panic at run time, modelled as `none`. -/
def goEq : Value → Value → Option Bool
  | .str a, .str b => some (decide (a = b))
  | .num a, .num b => some (decide (a = b))
  | .bool a, .bool b => some (decide (a = b))
  | .time a, .time b => some (decide (a = b))
  | .null, .null => some true
  | .obj _, .obj _ => none
  | .arr _, .arr _ => none
  | _, _ => some false

/-- The loop body of `compareDocuments`: check every entry of the first
document against the second. A missing key or an unequal value yields
`some false`; comparing two uncomparable values propagates the panic as
`none`. -/
def compareEntries : List (String × Value) → Document → Option Bool
  | [], _ => some true
  | (k, v1) :: rest, doc2 =>
      match lookupKV doc2 k with
      | none => some false
      | some v2 =>
          match goEq v1 v2 with
          | none => none
          | some false => some false
          | some true => compareEntries rest doc2

/-- `compareDocuments` from `open_search.go`: equal lengths, then each
key of `doc1` must exist in `doc2` with a Go-equal value. `none` models
the run-time panic of comparing uncomparable `interface{}` values. -/
def compareDocuments (doc1 doc2 : Document) : Option Bool :=
  if doc1.length ≠ doc2.length then some false
  else compareEntries doc1 doc2

/-- Document equality in the words of the specification: same number of
fields and, for every field in one, the other has a field with the same
name and an equal value. Total, unlike `compareDocuments`. -/
def specDocEq (d1 d2 : Document) : Prop :=
  d1.length = d2.length ∧ ∀ kv ∈ d1, lookupKV d2 kv.1 = some kv.2

/-- `search.GenerateDocumentID`: the document key
`instanceID + "-" + entityName + "-" + entityID`. -/
def GenerateDocumentID (instanceID entityName entityID : String) : String :=
  instanceID ++ "-" ++ entityName ++ "-" ++ entityID

/-- `Document.AddDocumentMetaData`. The Go method mutates its receiver
map in place and returns it; the model returns the receiver's final
state as the first component and the Go return value (stamped document
or error message) as the second. On the error paths the receiver is
returned unchanged and the Go function returns `nil` with the error. -/
def Document.AddDocumentMetaData (d : Document)
    (instanceID entityName entityID : String) :
    Document × Except String Document :=
  if entityID = "" then (d, .error "entityID is required")
  else if instanceID = "" then (d, .error "instanceID is required")
  else if entityName = "" then (d, .error "entityName is required")
  else
    let d1 := insertKV d "id" (.str entityID)
    let d2 := insertKV d1 "instance_id" (.str instanceID)
    let d3 := insertKV d2 "entity_name" (.str entityName)
    (d3, .ok d3)

/-- `search.Query`: an opaque user-supplied search expression. -/
structure Query where
  Value : String

/-- Response of a cluster to an index/delete request, as classified by
`executeRequest`: success, or any transport/non-2xx failure. -/
inductive WriteResult where
  | ok
  | failed (msg : String)

/-- Response of a cluster to a document get, as classified by
`executeReadRequest` plus `decodeResponse`: the decoded `_source`
document, a 404 not-found, or any other failure. -/
inductive FindResult where
  | found (d : Document)
  | notFound
  | failed (msg : String)

/-- Response of a cluster to a search request. -/
inductive SearchResult where
  | ok (docs : List Document)
  | failed (msg : String)

/-- One OpenSearch cluster, abstracted as its responses to the requests
the engine can issue (the wire protocol is external to the core). -/
structure Backend where
  putResp : (indexName : String) → (documentID : String) →
    (body : Document) → (refresh : Bool) → WriteResult
  findResp : (indexName : String) → (documentID : String) → FindResult
  deleteResp : (indexName : String) → (documentID : String) → WriteResult
  deleteIndexResp : (indexName : String) → WriteResult
  searchResp : (body : Value) → SearchResult

/-- Which cluster a request was sent to. -/
inductive ClusterTag where
  | primary
  | secondary
  deriving DecidableEq

/-- A request the engine issues to a cluster, with its arguments; the
engine operations also return the list of such calls they made, in
order, so that call order and fan-out are part of the model. -/
inductive BackendCall where
  | putDoc (indexName documentID : String) (body : Document) (refresh : Bool)
  | findDoc (indexName documentID : String)
  | deleteDoc (indexName documentID : String)
  | deleteIdx (indexName : String)
  | searchReq (body : Value)

/-- A traced call: cluster plus request. -/
abbrev Call := ClusterTag × BackendCall

/-- Error classification of a single cluster call inside the engine:
`ErrDocumentNotFound`, or any other backend failure. -/
inductive ClientError where
  | documentNotFound
  | backendFailure (msg : String)

/-- Errors returned by the engine operations. `primaryFailure` and
`secondaryFailure` model the `primary client:` / `secondary client:`
wrapping; `documentMismatch` carries the entity id of the
`documents mismatch for id %q` error; `missingMetaData` models the
`missing document meta data` wrap of a stamping error;
`requestFailure` models the untagged errors returned by `Search`. -/
inductive EngineError where
  | missingMetaData (msg : String)
  | primaryFailure (e : ClientError)
  | secondaryFailure (e : ClientError)
  | documentMismatch (entityID : String)
  | requestFailure (msg : String)

/-- Outcome of `FindDocument`: a document, an engine error, or a
run-time panic raised by `compareDocuments` on uncomparable values. -/
inductive FindOutcome where
  | ok (d : Document)
  | err (e : EngineError)
  | panicked

/-- The `OpenSearch` struct: a primary client and an optional
secondary client. -/
structure OpenSearch where
  primaryClient : Backend
  secondaryClient : Option Backend

/-- `OpenSearch.PutDocument`: stamp metadata (mutating the caller's
document), derive the key, write to primary, then to the secondary if
configured. Returns the Go result, the ordered list of cluster calls
made, and the final state of the caller's document argument. -/
def OpenSearch.PutDocument (os : OpenSearch)
    (instanceID indexName entityName entityID : String)
    (document : Document) (refresh : Bool) :
    Except EngineError Unit × List Call × Document :=
  match Document.AddDocumentMetaData document instanceID entityName entityID with
  | (dFinal, .error m) => (.error (.missingMetaData m), [], dFinal)
  | (dFinal, .ok d) =>
    let documentID := GenerateDocumentID instanceID entityName entityID
    let pCall : Call := (.primary, .putDoc indexName documentID d refresh)
    match os.primaryClient.putResp indexName documentID d refresh with
    | .failed m => (.error (.primaryFailure (.backendFailure m)), [pCall], dFinal)
    | .ok =>
      match os.secondaryClient with
      | none => (.ok (), [pCall], dFinal)
      | some sec =>
        let sCall : Call := (.secondary, .putDoc indexName documentID d refresh)
        match sec.putResp indexName documentID d refresh with
        | .failed m =>
            (.error (.secondaryFailure (.backendFailure m)), [pCall, sCall], dFinal)
        | .ok => (.ok (), [pCall, sCall], dFinal)

/-- `OpenSearch.FindDocument`: derive the key, fetch from primary
(failing fast on any primary error, not-found included), then, if a
secondary is configured, fetch from secondary and compare the two
documents, failing with a mismatch error when the comparison returns
false and panicking when it panics. -/
def OpenSearch.FindDocument (os : OpenSearch)
    (instanceID indexName entityName entityID : String) :
    FindOutcome × List Call :=
  let documentID := GenerateDocumentID instanceID entityName entityID
  let pCall : Call := (.primary, .findDoc indexName documentID)
  match os.primaryClient.findResp indexName documentID with
  | .notFound => (.err (.primaryFailure .documentNotFound), [pCall])
  | .failed m => (.err (.primaryFailure (.backendFailure m)), [pCall])
  | .found pryDoc =>
    match os.secondaryClient with
    | none => (.ok pryDoc, [pCall])
    | some sec =>
      let sCall : Call := (.secondary, .findDoc indexName documentID)
      match sec.findResp indexName documentID with
      | .notFound => (.err (.secondaryFailure .documentNotFound), [pCall, sCall])
      | .failed m => (.err (.secondaryFailure (.backendFailure m)), [pCall, sCall])
      | .found secDoc =>
        match compareDocuments pryDoc secDoc with
        | none => (.panicked, [pCall, sCall])
        | some false => (.err (.documentMismatch entityID), [pCall, sCall])
        | some true => (.ok pryDoc, [pCall, sCall])

/-- `OpenSearch.DeleteDocument`: derive the key, delete on primary,
then on the secondary if configured, failing fast on the first error. -/
def OpenSearch.DeleteDocument (os : OpenSearch)
    (instanceID indexName entityName entityID : String) :
    Except EngineError Unit × List Call :=
  let documentID := GenerateDocumentID instanceID entityName entityID
  let pCall : Call := (.primary, .deleteDoc indexName documentID)
  match os.primaryClient.deleteResp indexName documentID with
  | .failed m => (.error (.primaryFailure (.backendFailure m)), [pCall])
  | .ok =>
    match os.secondaryClient with
    | none => (.ok (), [pCall])
    | some sec =>
      let sCall : Call := (.secondary, .deleteDoc indexName documentID)
      match sec.deleteResp indexName documentID with
      | .failed m => (.error (.secondaryFailure (.backendFailure m)), [pCall, sCall])
      | .ok => (.ok (), [pCall, sCall])

/-- `OpenSearch.DeleteIndex`: delete the index on primary, then on the
secondary if configured, failing fast on the first error. -/
def OpenSearch.DeleteIndex (os : OpenSearch) (indexName : String) :
    Except EngineError Unit × List Call :=
  let pCall : Call := (.primary, .deleteIdx indexName)
  match os.primaryClient.deleteIndexResp indexName with
  | .failed m => (.error (.primaryFailure (.backendFailure m)), [pCall])
  | .ok =>
    match os.secondaryClient with
    | none => (.ok (), [pCall])
    | some sec =>
      let sCall : Call := (.secondary, .deleteIdx indexName)
      match sec.deleteIndexResp indexName with
      | .failed m => (.error (.secondaryFailure (.backendFailure m)), [pCall, sCall])
      | .ok => (.ok (), [pCall, sCall])

/-- `constructSearchQuery`: the bool query with the user's
`query_string` as `must` and a `term` filter on `instance_id`. -/
def constructSearchQuery (instanceID : String) (query : Query) : Value :=
  .obj [("query", .obj [("bool", .obj
    [("must", .obj [("query_string", .obj [("query", .str query.Value)])]),
     ("filter", .obj [("term", .obj [("instance_id", .str instanceID)])])])])]

/-- `OpenSearch.Search`: build the query, send it to the primary client
only, and return the extracted documents; errors are returned without a
cluster tag. -/
def OpenSearch.Search (os : OpenSearch) (instanceID : String) (query : Query) :
    Except EngineError (List Document) × List Call :=
  let searchQuery := constructSearchQuery instanceID query
  let pCall : Call := (.primary, .searchReq searchQuery)
  match os.primaryClient.searchResp searchQuery with
  | .failed m => (.error (.requestFailure m), [pCall])
  | .ok docs => (.ok docs, [pCall])

/-- The persisted state of one cluster: documents keyed by
(index name, document id). -/
abbrev Store := List ((String × String) × Document)

/-- Look up the document stored under a key. -/
def storeGet : Store → String → String → Option Document
  | [], _, _ => none
  | (k, d) :: rest, idx, docID =>
      if k = (idx, docID) then some d else storeGet rest idx docID

/-- Store a document under a key, replacing any existing one. -/
def storePut : Store → String → String → Document → Store
  | [], idx, docID, d => [((idx, docID), d)]
  | (k, d0) :: rest, idx, docID, d =>
      if k = (idx, docID) then ((idx, docID), d) :: rest
      else (k, d0) :: storePut rest idx docID d

/-- Remove the document stored under a key. -/
def storeDelete : Store → String → String → Store
  | [], _, _ => []
  | (k, d0) :: rest, idx, docID =>
      if k = (idx, docID) then storeDelete rest idx docID
      else (k, d0) :: storeDelete rest idx docID

/-- Remove every document of an index. -/
def storeDeleteIndex : Store → String → Store
  | [], _ => []
  | (k, d0) :: rest, idx =>
      if k.1 = idx then storeDeleteIndex rest idx
      else (k, d0) :: storeDeleteIndex rest idx

/-- A healthy cluster over a store: gets read the store, writes are
acknowledged, searches return nothing. -/
def storeBackend (s : Store) : Backend where
  putResp := fun _ _ _ _ => .ok
  findResp := fun idx docID =>
    match storeGet s idx docID with
    | some d => .found d
    | none => .notFound
  deleteResp := fun _ _ => .ok
  deleteIndexResp := fun _ => .ok
  searchResp := fun _ => .ok []

/-- Effect of one traced call on a cluster's store. -/
def applyCall (s : Store) : Call → Store
  | (_, .putDoc idx docID body _) => storePut s idx docID body
  | (_, .deleteDoc idx docID) => storeDelete s idx docID
  | (_, .deleteIdx idx) => storeDeleteIndex s idx
  | (_, .findDoc _ _) => s
  | (_, .searchReq _) => s

/-- Field access inside a JSON-like value. -/
def lookupField (v : Value) (k : String) : Option Value :=
  match v with
  | .obj fields => lookupKV fields k
  | _ => none

/-- The instance id a query body filters on, read from the path
`query.bool.filter.term.instance_id`. -/
def queryInstanceFilter (q : Value) : Option String :=
  match lookupField q "query" >>= (lookupField · "bool") >>=
      (lookupField · "filter") >>= (lookupField · "term") >>=
      (lookupField · "instance_id") with
  | some (.str v) => some v
  | _ => none

/-- A backend honours term filters on `instance_id`: every document it
returns for a query filtering on instance id `v` has `instance_id = v`.
This is the documented semantics of the external cluster's bool/term
query, which is outside the repository. -/
def RespectsInstanceFilter (b : Backend) : Prop :=
  ∀ q v docs, queryInstanceFilter q = some v → b.searchResp q = .ok docs →
    ∀ d ∈ docs, lookupKV d "instance_id" = some (.str v)

/-- The three metadata assignments performed by `AddDocumentMetaData`
on its success path. -/
def stampMetaData (d : Document) (instanceID entityName entityID : String) : Document :=
  insertKV (insertKV (insertKV d "id" (.str entityID))
    "instance_id" (.str instanceID)) "entity_name" (.str entityName)

/-- A backend giving fixed answers, used to instantiate theorems. -/
def fixedBackend (f : FindResult) (w : WriteResult) (s : SearchResult) : Backend where
  putResp := fun _ _ _ _ => w
  findResp := fun _ _ => f
  deleteResp := fun _ _ => w
  deleteIndexResp := fun _ => w
  searchResp := fun _ => s

theorem lookupKV_insertKV_self (d : Document) (k : String) (v : Value) :
    lookupKV (insertKV d k v) k = some v := by
  induction d with
  | nil => simp [insertKV, lookupKV]
  | cons kv rest ih =>
      by_cases h : kv.1 = k
      · simp [insertKV, h, lookupKV]
      · simpa [insertKV, h, lookupKV] using ih

theorem lookupKV_insertKV_ne (d : Document) (k k' : String) (v : Value)
    (h : k ≠ k') : lookupKV (insertKV d k v) k' = lookupKV d k' := by
  induction d with
  | nil => simp [insertKV, lookupKV, h]
  | cons kv rest ih =>
      by_cases hk : kv.1 = k
      · simp [insertKV, hk, lookupKV, h]
      · by_cases hk' : kv.1 = k'
        · simp [insertKV, hk, lookupKV, hk', Ne.symm h]
        · simpa [insertKV, hk, lookupKV, hk'] using ih

theorem addDocumentMetaData_ok (d : Document)
    (instanceID entityName entityID : String)
    (h1 : instanceID ≠ "") (h2 : entityName ≠ "") (h3 : entityID ≠ "") :
    Document.AddDocumentMetaData d instanceID entityName entityID =
      (stampMetaData d instanceID entityName entityID,
       .ok (stampMetaData d instanceID entityName entityID)) := by
  unfold Document.AddDocumentMetaData stampMetaData
  simp [h1, h2, h3]

/-- C7. The claim says the consistency-check predicate decides
field-by-field equality for every pair of documents over the whole
value union, nested objects and lists included. The code compares field
values with Go `!=` on `interface{}`, which panics at run time when both
sides hold values of an uncomparable dynamic type: on two identical
one-field documents whose field holds a nested (even empty) object,
`compareDocuments` panics instead of returning true, although the two
documents are field-by-field equal in the claim's sense. -/
theorem compareDocuments_panics_on_nested_values :
    compareDocuments [("a", .obj [])] [("a", .obj [])] = none ∧
    specDocEq [("a", .obj [])] [("a", .obj [])] := by
  refine ⟨rfl, rfl, ?_⟩
  intro kv hkv
  simp only [List.mem_singleton] at hkv
  subst hkv
  rfl

/-- C9. If any of the three identifiers is empty, metadata stamping
returns the receiver document unchanged together with an error naming
an identifier that is indeed empty, checking entityID, then instanceID,
then entityName. -/
theorem addDocumentMetaData_missing_field_unchanged (d : Document)
    (instanceID entityName entityID : String)
    (h : instanceID = "" ∨ entityName = "" ∨ entityID = "") :
    (Document.AddDocumentMetaData d instanceID entityName entityID).1 = d ∧
    ∃ m, (Document.AddDocumentMetaData d instanceID entityName entityID).2 =
        .error m ∧
      ((m = "entityID is required" ∧ entityID = "") ∨
       (m = "instanceID is required" ∧ instanceID = "") ∨
       (m = "entityName is required" ∧ entityName = "")) := by
  unfold Document.AddDocumentMetaData
  by_cases h3 : entityID = ""
  · exact ⟨by simp [h3], "entityID is required", by simp [h3], Or.inl ⟨rfl, h3⟩⟩
  · by_cases h1 : instanceID = ""
    · exact ⟨by simp [h3, h1], "instanceID is required", by simp [h3, h1],
        Or.inr (Or.inl ⟨rfl, h1⟩)⟩
    · by_cases h2 : entityName = ""
      · exact ⟨by simp [h3, h1, h2], "entityName is required",
          by simp [h3, h1, h2], Or.inr (Or.inr ⟨rfl, h2⟩)⟩
      · rcases h with h | h | h <;> contradiction

/-- Witness for C9 at a concrete input: an empty instance id. -/
theorem addDocumentMetaData_missing_field_unchanged_witness :
    (Document.AddDocumentMetaData [("a", .str "x")] "" "person" "p1").1 =
      [("a", .str "x")] ∧
    ∃ m, (Document.AddDocumentMetaData [("a", .str "x")] "" "person" "p1").2 =
        .error m ∧
      ((m = "entityID is required" ∧ "p1" = "") ∨
       (m = "instanceID is required" ∧ "" = "") ∨
       (m = "entityName is required" ∧ "person" = "")) :=
  addDocumentMetaData_missing_field_unchanged [("a", .str "x")] "" "person" "p1"
    (Or.inl rfl)

/-- C10. On success, `AddDocumentMetaData` returns exactly the final
state of its receiver: the input document with `id`, `instance_id` and
`entity_name` set to the given identifiers, overwriting any pre-existing
values at those keys; and `PutDocument` leaves its caller's document
argument in that stamped state. -/
theorem addDocumentMetaData_in_place_stamping (d : Document)
    (instanceID entityName entityID indexName : String) (refresh : Bool)
    (h1 : instanceID ≠ "") (h2 : entityName ≠ "") (h3 : entityID ≠ "") :
    Document.AddDocumentMetaData d instanceID entityName entityID =
      (stampMetaData d instanceID entityName entityID,
       .ok (stampMetaData d instanceID entityName entityID)) ∧
    lookupKV (stampMetaData d instanceID entityName entityID) "id" =
      some (.str entityID) ∧
    lookupKV (stampMetaData d instanceID entityName entityID) "instance_id" =
      some (.str instanceID) ∧
    lookupKV (stampMetaData d instanceID entityName entityID) "entity_name" =
      some (.str entityName) ∧
    ∀ os : OpenSearch,
      (os.PutDocument instanceID indexName entityName entityID d refresh).2.2 =
        stampMetaData d instanceID entityName entityID := by
  refine ⟨addDocumentMetaData_ok d instanceID entityName entityID h1 h2 h3,
    ?_, ?_, ?_, ?_⟩
  · unfold stampMetaData
    rw [lookupKV_insertKV_ne _ _ _ _ (by decide),
      lookupKV_insertKV_ne _ _ _ _ (by decide), lookupKV_insertKV_self]
  · unfold stampMetaData
    rw [lookupKV_insertKV_ne _ _ _ _ (by decide), lookupKV_insertKV_self]
  · unfold stampMetaData
    rw [lookupKV_insertKV_self]
  · intro os
    unfold OpenSearch.PutDocument
    rw [addDocumentMetaData_ok d instanceID entityName entityID h1 h2 h3]
    dsimp only
    split
    · rfl
    · split
      · rfl
      · split <;> rfl

/-- Witness for C10 at a concrete input, with a document that already
carries an `id` field, which is overwritten. -/
theorem addDocumentMetaData_in_place_stamping_witness :
    Document.AddDocumentMetaData [("id", .str "old")] "t1" "person" "p1" =
      (stampMetaData [("id", .str "old")] "t1" "person" "p1",
       .ok (stampMetaData [("id", .str "old")] "t1" "person" "p1")) ∧
    lookupKV (stampMetaData [("id", .str "old")] "t1" "person" "p1") "id" =
      some (.str "p1") ∧
    lookupKV (stampMetaData [("id", .str "old")] "t1" "person" "p1")
      "instance_id" = some (.str "t1") ∧
    lookupKV (stampMetaData [("id", .str "old")] "t1" "person" "p1")
      "entity_name" = some (.str "person") ∧
    ∀ os : OpenSearch,
      (os.PutDocument "t1" "idx" "person" "p1" [("id", .str "old")] false).2.2 =
        stampMetaData [("id", .str "old")] "t1" "person" "p1" :=
  addDocumentMetaData_in_place_stamping [("id", .str "old")] "t1" "person" "p1"
    "idx" false (by decide) (by decide) (by decide)

theorem append_sep_inj {a1 b1 a2 b2 : List Char}
    (h1 : '-' ∉ a1) (h2 : '-' ∉ a2)
    (h : a1 ++ '-' :: b1 = a2 ++ '-' :: b2) : a1 = a2 ∧ b1 = b2 := by
  induction a1 generalizing a2 with
  | nil =>
      cases a2 with
      | nil => simpa using h
      | cons c t =>
          simp only [List.nil_append, List.cons_append, List.cons.injEq] at h
          exact absurd (h.1 ▸ List.mem_cons_self c t) h2
  | cons c t ih =>
      cases a2 with
      | nil =>
          simp only [List.nil_append, List.cons_append, List.cons.injEq] at h
          exact absurd (h.1 ▸ List.mem_cons_self c t) h1
      | cons c2 t2 =>
          simp only [List.cons_append, List.cons.injEq] at h
          have ht := ih (fun hm => h1 (List.mem_cons_of_mem c hm))
            (fun hm => h2 (h.1 ▸ List.mem_cons_of_mem c2 hm)) h.2
          exact ⟨by rw [h.1, ht.1], ht.2⟩

theorem generateDocumentID_data (instanceID entityName entityID : String) :
    (GenerateDocumentID instanceID entityName entityID).data =
      instanceID.data ++ '-' :: (entityName.data ++ '-' :: entityID.data) := by
  unfold GenerateDocumentID
  simp [String.data_append]

/-- C8, counterexample. Key derivation is not injective over non-empty
inputs: when a component contains the separator character `-`, two
distinct triples of non-empty strings collide. -/
theorem generateDocumentID_collision_cex :
    GenerateDocumentID "a-b" "c" "d" = GenerateDocumentID "a" "b-c" "d" ∧
    ("a-b", "c", "d") ≠ ("a", "b-c", "d") ∧
    "a-b" ≠ "" ∧ "c" ≠ "" ∧ "d" ≠ "" ∧ "a" ≠ "" ∧ "b-c" ≠ "" := by
  refine ⟨?_, by decide, by decide, by decide, by decide, by decide, by decide⟩
  decide

/-- C8, amended. Identical triples always yield an identical key, and
two distinct triples of non-empty strings yield distinct keys provided
no component contains the separator character `-`. -/
theorem generateDocumentID_deterministic_injective_sepfree :
    (∀ instanceID entityName entityID : String,
      GenerateDocumentID instanceID entityName entityID =
        GenerateDocumentID instanceID entityName entityID) ∧
    ∀ i1 e1 k1 i2 e2 k2 : String,
      i1 ≠ "" → e1 ≠ "" → k1 ≠ "" → i2 ≠ "" → e2 ≠ "" → k2 ≠ "" →
      '-' ∉ i1.data → '-' ∉ e1.data → '-' ∉ k1.data →
      '-' ∉ i2.data → '-' ∉ e2.data → '-' ∉ k2.data →
      (i1, e1, k1) ≠ (i2, e2, k2) →
      GenerateDocumentID i1 e1 k1 ≠ GenerateDocumentID i2 e2 k2 := by
  refine ⟨fun _ _ _ => rfl, ?_⟩
  intro i1 e1 k1 i2 e2 k2 _ _ _ _ _ _ hi1 he1 _ hi2 he2 _ hne heq
  apply hne
  have hdata := congrArg String.data heq
  rw [generateDocumentID_data, generateDocumentID_data] at hdata
  obtain ⟨hi, hrest⟩ := append_sep_inj hi1 hi2 hdata
  obtain ⟨he, hk⟩ := append_sep_inj he1 he2 hrest
  rw [String.ext hi, String.ext he, String.ext hk]

/-- Witness for C8's amended theorem: two distinct separator-free
triples receive distinct keys. -/
theorem generateDocumentID_deterministic_injective_sepfree_witness :
    GenerateDocumentID "t1" "person" "p1" ≠ GenerateDocumentID "t1" "person" "p2" :=
  generateDocumentID_deterministic_injective_sepfree.2 "t1" "person" "p1"
    "t1" "person" "p2" (by decide) (by decide) (by decide) (by decide)
    (by decide) (by decide) (by decide) (by decide) (by decide) (by decide)
    (by decide) (by decide) (by decide)

/-- C1, counterexample. With a secondary configured and both lookups
succeeding, two documents that are not field-by-field equal (each holds
a single field `a` with different nested objects) make `FindDocument`
panic inside `compareDocuments` instead of failing with the
`DocumentMismatch` error the claim requires. -/
theorem findDocument_mismatch_panic_cex :
    ¬ specDocEq [("a", Value.obj [])] [("a", Value.obj [("x", Value.str "1")])] ∧
    ((OpenSearch.mk
        (fixedBackend (.found [("a", Value.obj [])]) .ok (.ok []))
        (some (fixedBackend (.found [("a", Value.obj [("x", Value.str "1")])])
          .ok (.ok [])))).FindDocument "t1" "idx" "person" "p1").1 = .panicked ∧
    FindOutcome.panicked ≠ .err (.documentMismatch "p1") := by
  refine ⟨?_, rfl, by intro h; exact nomatch h⟩
  intro h
  have := h.2 ("a", Value.obj []) (List.mem_singleton.mpr rfl)
  simp [lookupKV] at this

/-- C1, amended. With a secondary configured, when both lookups succeed
and the comparison of the two documents returns false (rather than
panicking on a field where both hold values of an uncomparable kind),
`FindDocument` fails with the `DocumentMismatch` error carrying the
entity id, returning neither document. -/
theorem findDocument_mismatch_error (os : OpenSearch) (sec : Backend)
    (instanceID indexName entityName entityID : String)
    (pryDoc secDoc : Document)
    (hsec : os.secondaryClient = some sec)
    (hp : os.primaryClient.findResp indexName
      (GenerateDocumentID instanceID entityName entityID) = .found pryDoc)
    (hs : sec.findResp indexName
      (GenerateDocumentID instanceID entityName entityID) = .found secDoc)
    (hcmp : compareDocuments pryDoc secDoc = some false) :
    (os.FindDocument instanceID indexName entityName entityID).1 =
      .err (.documentMismatch entityID) := by
  unfold OpenSearch.FindDocument
  simp only [hp, hsec, hs, hcmp]

/-- Witness for C1's amended theorem on the specification's mismatch
scenario: primary holds name A, secondary holds name B. -/
theorem findDocument_mismatch_error_witness :
    ((OpenSearch.mk (fixedBackend (.found [("name", Value.str "A")]) .ok (.ok []))
        (some (fixedBackend (.found [("name", Value.str "B")]) .ok (.ok [])))
      ).FindDocument "t1" "idx" "person" "p1").1 =
      .err (.documentMismatch "p1") :=
  findDocument_mismatch_error _ _ "t1" "idx" "person" "p1"
    [("name", Value.str "A")] [("name", Value.str "B")] rfl rfl rfl (by decide)

/-- C5, counterexample. With a secondary configured, primary finding
the document and secondary reporting not-found, `FindDocument` fails
with a secondary-tagged `DocumentNotFound` error, not with the
`DocumentMismatch` error the claim requires. -/
theorem findDocument_secondary_notfound_cex :
    ((OpenSearch.mk (fixedBackend (.found [("name", Value.str "A")]) .ok (.ok []))
        (some (fixedBackend .notFound .ok (.ok [])))
      ).FindDocument "t1" "idx" "person" "p1").1 =
      .err (.secondaryFailure .documentNotFound) ∧
    FindOutcome.err (.secondaryFailure .documentNotFound) ≠
      .err (.documentMismatch "p1") := by
  refine ⟨rfl, ?_⟩
  intro h
  exact nomatch h

/-- C5, amended. With a secondary configured, when the primary lookup
finds the document and the secondary lookup reports not-found, the call
fails with a `DocumentNotFound` error tagged as coming from the
secondary client — the divergence surfaces as an error rather than
being silently ignored, but as a secondary not-found, not as
`DocumentMismatch`. -/
theorem findDocument_secondary_notfound_error (os : OpenSearch) (sec : Backend)
    (instanceID indexName entityName entityID : String) (pryDoc : Document)
    (hsec : os.secondaryClient = some sec)
    (hp : os.primaryClient.findResp indexName
      (GenerateDocumentID instanceID entityName entityID) = .found pryDoc)
    (hs : sec.findResp indexName
      (GenerateDocumentID instanceID entityName entityID) = .notFound) :
    (os.FindDocument instanceID indexName entityName entityID).1 =
      .err (.secondaryFailure .documentNotFound) ∧
    ∀ d, (os.FindDocument instanceID indexName entityName entityID).1 ≠
      .ok d := by
  unfold OpenSearch.FindDocument
  simp [hp, hsec, hs]

/-- Witness for C5's amended theorem at a concrete input. -/
theorem findDocument_secondary_notfound_error_witness :
    ((OpenSearch.mk (fixedBackend (.found [("name", Value.str "A")]) .ok (.ok []))
        (some (fixedBackend .notFound .ok (.ok [])))
      ).FindDocument "t2" "idx" "person" "p2").1 =
      .err (.secondaryFailure .documentNotFound) ∧
    ∀ d, ((OpenSearch.mk
        (fixedBackend (.found [("name", Value.str "A")]) .ok (.ok []))
        (some (fixedBackend .notFound .ok (.ok [])))
      ).FindDocument "t2" "idx" "person" "p2").1 ≠ .ok d :=
  findDocument_secondary_notfound_error _ _ "t2" "idx" "person" "p2"
    [("name", Value.str "A")] rfl rfl rfl

/-- C6. When the primary lookup reports not-found, `FindDocument` fails
with a primary-tagged `DocumentNotFound` error — never an empty
success — and its trace is the single primary lookup: the secondary is
not consulted even when one is configured. -/
theorem findDocument_primary_notfound_short_circuits (os : OpenSearch)
    (instanceID indexName entityName entityID : String)
    (h : os.primaryClient.findResp indexName
      (GenerateDocumentID instanceID entityName entityID) = .notFound) :
    (os.FindDocument instanceID indexName entityName entityID).1 =
      .err (.primaryFailure .documentNotFound) ∧
    (os.FindDocument instanceID indexName entityName entityID).2 =
      [(.primary, .findDoc indexName
        (GenerateDocumentID instanceID entityName entityID))] := by
  unfold OpenSearch.FindDocument
  simp [h]

/-- Witness for C6, with a secondary configured whose lookup would
succeed: the primary not-found still short-circuits. -/
theorem findDocument_primary_notfound_short_circuits_witness :
    ((OpenSearch.mk (fixedBackend .notFound .ok (.ok []))
        (some (fixedBackend (.found [("name", Value.str "A")]) .ok (.ok [])))
      ).FindDocument "t1" "idx" "person" "p9").1 =
      .err (.primaryFailure .documentNotFound) ∧
    ((OpenSearch.mk (fixedBackend .notFound .ok (.ok []))
        (some (fixedBackend (.found [("name", Value.str "A")]) .ok (.ok [])))
      ).FindDocument "t1" "idx" "person" "p9").2 =
      [(.primary, .findDoc "idx" (GenerateDocumentID "t1" "person" "p9"))] :=
  findDocument_primary_notfound_short_circuits _ "t1" "idx" "person" "p9" rfl

theorem storeGet_storePut_self (s : Store) (idx docID : String) (d : Document) :
    storeGet (storePut s idx docID d) idx docID = some d := by
  induction s with
  | nil => simp [storePut, storeGet]
  | cons kd rest ih =>
      by_cases h : kd.1 = (idx, docID)
      · simp [storePut, h, storeGet]
      · simpa [storePut, h, storeGet] using ih

/-- C3. With only a primary cluster configured and a healthy store
backend, a successful `PutDocument` followed by `FindDocument` with the
same identifiers returns the input document with the three metadata
fields `id`, `instance_id` and `entity_name` injected; the store after
the put is the store updated by the calls the put made. -/
theorem putDocument_findDocument_roundtrip (s : Store)
    (instanceID indexName entityName entityID : String)
    (document : Document) (refresh : Bool)
    (h1 : instanceID ≠ "") (h2 : entityName ≠ "") (h3 : entityID ≠ "") :
    ((OpenSearch.mk (storeBackend s) none).PutDocument
      instanceID indexName entityName entityID document refresh).1 = .ok () ∧
    ((OpenSearch.mk (storeBackend
        (((OpenSearch.mk (storeBackend s) none).PutDocument
          instanceID indexName entityName entityID document refresh).2.1.foldl
            applyCall s)) none).FindDocument
      instanceID indexName entityName entityID).1 =
      .ok (stampMetaData document instanceID entityName entityID) := by
  have hput : (OpenSearch.mk (storeBackend s) none).PutDocument
      instanceID indexName entityName entityID document refresh =
      (.ok (), [(.primary, .putDoc indexName
          (GenerateDocumentID instanceID entityName entityID)
          (stampMetaData document instanceID entityName entityID) refresh)],
        stampMetaData document instanceID entityName entityID) := by
    unfold OpenSearch.PutDocument
    rw [addDocumentMetaData_ok document instanceID entityName entityID h1 h2 h3]
    rfl
  refine ⟨by rw [hput], ?_⟩
  rw [hput]
  unfold OpenSearch.FindDocument
  simp only [List.foldl_cons, List.foldl_nil, applyCall, storeBackend,
    storeGet_storePut_self]

/-- Witness for C3 at a concrete input: an empty store, one caller
field, and the stamped document coming back from the lookup. -/
theorem putDocument_findDocument_roundtrip_witness :
    ((OpenSearch.mk (storeBackend []) none).PutDocument
      "t1" "idx" "person" "p1" [("name", Value.str "A")] false).1 = .ok () ∧
    ((OpenSearch.mk (storeBackend
        (((OpenSearch.mk (storeBackend []) none).PutDocument
          "t1" "idx" "person" "p1" [("name", Value.str "A")] false).2.1.foldl
            applyCall [])) none).FindDocument "t1" "idx" "person" "p1").1 =
      .ok (stampMetaData [("name", Value.str "A")] "t1" "person" "p1") :=
  putDocument_findDocument_roundtrip [] "t1" "idx" "person" "p1"
    [("name", Value.str "A")] false (by decide) (by decide) (by decide)

/-- A backend that honours the instance filter: it answers a search
with one document stamped with the instance id the query filters on. -/
def filterRespectingBackend : Backend where
  putResp := fun _ _ _ _ => .ok
  findResp := fun _ _ => .notFound
  deleteResp := fun _ _ => .ok
  deleteIndexResp := fun _ => .ok
  searchResp := fun q =>
    match queryInstanceFilter q with
    | some v => .ok [[("instance_id", .str v)]]
    | none => .ok []

theorem filterRespectingBackend_respects :
    RespectsInstanceFilter filterRespectingBackend := by
  intro q v docs hq hs d hd
  simp only [filterRespectingBackend, hq] at hs
  cases hs
  simp only [List.mem_singleton] at hd
  subst hd
  rfl

/-- C4. `Search` issues exactly one request, to the primary cluster,
carrying the constructed query; that query always filters on the given
instance id; and against any primary backend honouring term filters on
`instance_id`, every returned document has `instance_id` equal to the
given instance id, whatever the free-text query is. -/
theorem search_primary_only_tenant_isolation (os : OpenSearch)
    (instanceID : String) (query : Query) :
    (os.Search instanceID query).2 =
      [(.primary, .searchReq (constructSearchQuery instanceID query))] ∧
    queryInstanceFilter (constructSearchQuery instanceID query) =
      some instanceID ∧
    (RespectsInstanceFilter os.primaryClient →
      ∀ docs, (os.Search instanceID query).1 = .ok docs →
        ∀ d ∈ docs, lookupKV d "instance_id" = some (.str instanceID)) := by
  refine ⟨?_, rfl, ?_⟩
  · unfold OpenSearch.Search
    dsimp only
    split <;> rfl
  · intro hR docs hdocs d hd
    unfold OpenSearch.Search at hdocs
    dsimp only at hdocs
    cases hq : os.primaryClient.searchResp (constructSearchQuery instanceID query) with
    | ok ds =>
        rw [hq] at hdocs
        dsimp only at hdocs
        cases hdocs
        exact hR (constructSearchQuery instanceID query) instanceID docs rfl hq d hd
    | failed m =>
        rw [hq] at hdocs
        exact nomatch hdocs

/-- Witness for C4: the filter-honouring backend returns a document
whose `instance_id` field is the searched tenant. -/
theorem search_primary_only_tenant_isolation_witness :
    lookupKV [("instance_id", Value.str "t1")] "instance_id" =
      some (.str "t1") :=
  (search_primary_only_tenant_isolation
      (OpenSearch.mk filterRespectingBackend none) "t1" ⟨"hello"⟩).2.2
    filterRespectingBackend_respects [[("instance_id", Value.str "t1")]] rfl
    [("instance_id", Value.str "t1")] (List.mem_singleton.mpr rfl)

/-- C2. For each fan-out operation — `PutDocument`, `DeleteDocument`,
`DeleteIndex` — if the primary step fails, the operation returns the
primary-tagged error and its trace is the single primary call (the
secondary is never touched); if the primary step succeeds and the
secondary step fails, the operation returns the secondary-tagged error
and its trace is the primary call followed by the secondary call: the
primary effect stands, no compensating call is issued, and the split
state surfaces as an error. -/
theorem fanout_primary_first_fail_fast (os : OpenSearch)
    (instanceID indexName entityName entityID : String)
    (document : Document) (refresh : Bool)
    (h1 : instanceID ≠ "") (h2 : entityName ≠ "") (h3 : entityID ≠ "") :
    (∀ m, os.primaryClient.putResp indexName
        (GenerateDocumentID instanceID entityName entityID)
        (stampMetaData document instanceID entityName entityID) refresh =
          .failed m →
      os.PutDocument instanceID indexName entityName entityID document refresh =
        (.error (.primaryFailure (.backendFailure m)),
         [(.primary, .putDoc indexName
            (GenerateDocumentID instanceID entityName entityID)
            (stampMetaData document instanceID entityName entityID) refresh)],
         stampMetaData document instanceID entityName entityID)) ∧
    (∀ sec m, os.secondaryClient = some sec →
      os.primaryClient.putResp indexName
        (GenerateDocumentID instanceID entityName entityID)
        (stampMetaData document instanceID entityName entityID) refresh = .ok →
      sec.putResp indexName
        (GenerateDocumentID instanceID entityName entityID)
        (stampMetaData document instanceID entityName entityID) refresh =
          .failed m →
      os.PutDocument instanceID indexName entityName entityID document refresh =
        (.error (.secondaryFailure (.backendFailure m)),
         [(.primary, .putDoc indexName
            (GenerateDocumentID instanceID entityName entityID)
            (stampMetaData document instanceID entityName entityID) refresh),
          (.secondary, .putDoc indexName
            (GenerateDocumentID instanceID entityName entityID)
            (stampMetaData document instanceID entityName entityID) refresh)],
         stampMetaData document instanceID entityName entityID)) ∧
    (∀ m, os.primaryClient.deleteResp indexName
        (GenerateDocumentID instanceID entityName entityID) = .failed m →
      os.DeleteDocument instanceID indexName entityName entityID =
        (.error (.primaryFailure (.backendFailure m)),
         [(.primary, .deleteDoc indexName
            (GenerateDocumentID instanceID entityName entityID))])) ∧
    (∀ sec m, os.secondaryClient = some sec →
      os.primaryClient.deleteResp indexName
        (GenerateDocumentID instanceID entityName entityID) = .ok →
      sec.deleteResp indexName
        (GenerateDocumentID instanceID entityName entityID) = .failed m →
      os.DeleteDocument instanceID indexName entityName entityID =
        (.error (.secondaryFailure (.backendFailure m)),
         [(.primary, .deleteDoc indexName
            (GenerateDocumentID instanceID entityName entityID)),
          (.secondary, .deleteDoc indexName
            (GenerateDocumentID instanceID entityName entityID))])) ∧
    (∀ m, os.primaryClient.deleteIndexResp indexName = .failed m →
      os.DeleteIndex indexName =
        (.error (.primaryFailure (.backendFailure m)),
         [(.primary, .deleteIdx indexName)])) ∧
    (∀ sec m, os.secondaryClient = some sec →
      os.primaryClient.deleteIndexResp indexName = .ok →
      sec.deleteIndexResp indexName = .failed m →
      os.DeleteIndex indexName =
        (.error (.secondaryFailure (.backendFailure m)),
         [(.primary, .deleteIdx indexName),
          (.secondary, .deleteIdx indexName)])) := by
  refine ⟨?_, ?_, ?_, ?_, ?_, ?_⟩
  · intro m hp
    unfold OpenSearch.PutDocument
    rw [addDocumentMetaData_ok document instanceID entityName entityID h1 h2 h3]
    dsimp only
    rw [hp]
  · intro sec m hsec hp hs
    unfold OpenSearch.PutDocument
    rw [addDocumentMetaData_ok document instanceID entityName entityID h1 h2 h3]
    dsimp only
    rw [hp, hsec]
    dsimp only
    rw [hs]
  · intro m hp
    unfold OpenSearch.DeleteDocument
    dsimp only
    rw [hp]
  · intro sec m hsec hp hs
    unfold OpenSearch.DeleteDocument
    dsimp only
    rw [hp, hsec]
    dsimp only
    rw [hs]
  · intro m hp
    unfold OpenSearch.DeleteIndex
    dsimp only
    rw [hp]
  · intro sec m hsec hp hs
    unfold OpenSearch.DeleteIndex
    dsimp only
    rw [hp, hsec]
    dsimp only
    rw [hs]

/-- An engine whose primary cluster fails every write-style request
while its configured secondary would succeed. -/
def primaryFailEngine : OpenSearch where
  primaryClient := fixedBackend .notFound (.failed "boom") (.ok [])
  secondaryClient := some (fixedBackend .notFound .ok (.ok []))

/-- An engine whose primary cluster succeeds while its configured
secondary fails every write-style request. -/
def secondaryFailEngine : OpenSearch where
  primaryClient := fixedBackend .notFound .ok (.ok [])
  secondaryClient := some (fixedBackend .notFound (.failed "boom") (.ok []))

/-- Witness for C2: the six fan-out conclusions at concrete engines,
one with a failing primary and one with a failing secondary. -/
theorem fanout_primary_first_fail_fast_witness :
    primaryFailEngine.PutDocument "t1" "idx" "person" "p1"
        [("name", Value.str "A")] false =
      (.error (.primaryFailure (.backendFailure "boom")),
       [(.primary, .putDoc "idx" (GenerateDocumentID "t1" "person" "p1")
          (stampMetaData [("name", Value.str "A")] "t1" "person" "p1") false)],
       stampMetaData [("name", Value.str "A")] "t1" "person" "p1") ∧
    secondaryFailEngine.PutDocument "t1" "idx" "person" "p1"
        [("name", Value.str "A")] false =
      (.error (.secondaryFailure (.backendFailure "boom")),
       [(.primary, .putDoc "idx" (GenerateDocumentID "t1" "person" "p1")
          (stampMetaData [("name", Value.str "A")] "t1" "person" "p1") false),
        (.secondary, .putDoc "idx" (GenerateDocumentID "t1" "person" "p1")
          (stampMetaData [("name", Value.str "A")] "t1" "person" "p1") false)],
       stampMetaData [("name", Value.str "A")] "t1" "person" "p1") ∧
    primaryFailEngine.DeleteDocument "t1" "idx" "person" "p1" =
      (.error (.primaryFailure (.backendFailure "boom")),
       [(.primary, .deleteDoc "idx" (GenerateDocumentID "t1" "person" "p1"))]) ∧
    secondaryFailEngine.DeleteDocument "t1" "idx" "person" "p1" =
      (.error (.secondaryFailure (.backendFailure "boom")),
       [(.primary, .deleteDoc "idx" (GenerateDocumentID "t1" "person" "p1")),
        (.secondary, .deleteDoc "idx" (GenerateDocumentID "t1" "person" "p1"))]) ∧
    primaryFailEngine.DeleteIndex "idx" =
      (.error (.primaryFailure (.backendFailure "boom")),
       [(.primary, .deleteIdx "idx")]) ∧
    secondaryFailEngine.DeleteIndex "idx" =
      (.error (.secondaryFailure (.backendFailure "boom")),
       [(.primary, .deleteIdx "idx"), (.secondary, .deleteIdx "idx")]) :=
  ⟨(fanout_primary_first_fail_fast primaryFailEngine "t1" "idx" "person" "p1"
      [("name", Value.str "A")] false (by decide) (by decide) (by decide)).1
      "boom" rfl,
   (fanout_primary_first_fail_fast secondaryFailEngine "t1" "idx" "person" "p1"
      [("name", Value.str "A")] false (by decide) (by decide) (by decide)).2.1
      (fixedBackend .notFound (.failed "boom") (.ok [])) "boom" rfl rfl rfl,
   (fanout_primary_first_fail_fast primaryFailEngine "t1" "idx" "person" "p1"
      [("name", Value.str "A")] false (by decide) (by decide) (by decide)).2.2.1
      "boom" rfl,
   (fanout_primary_first_fail_fast secondaryFailEngine "t1" "idx" "person" "p1"
      [("name", Value.str "A")] false (by decide) (by decide) (by decide)).2.2.2.1
      (fixedBackend .notFound (.failed "boom") (.ok [])) "boom" rfl rfl rfl,
   (fanout_primary_first_fail_fast primaryFailEngine "t1" "idx" "person" "p1"
      [("name", Value.str "A")] false (by decide) (by decide) (by decide)).2.2.2.2.1
      "boom" rfl,
   (fanout_primary_first_fail_fast secondaryFailEngine "t1" "idx" "person" "p1"
      [("name", Value.str "A")] false (by decide) (by decide) (by decide)).2.2.2.2.2
      (fixedBackend .notFound (.failed "boom") (.ok [])) "boom" rfl rfl rfl⟩

end OpenSearchDev
